import Mathlib

/-!
Verification of the terraform ansible provisioner (provisioner.go).

The Go source is shallowly embedded: every function of the source that the
properties below talk about is translated into an executable Lean definition
of the same name.  External collaborators (the terraform communicator, the
filesystem, the clock) are modelled as explicit oracle inputs (`Env`), and
the workflow functions additionally return the ordered list of observable
actions (`WEv`) they perform, so that ordering and phase properties can be
stated.  Errors that the Go code returns as `error` values become `Option`
or `Except` results; the two Go panics in the list/map coercions become
`Except.error`.
-/

namespace TfAnsible

/-! ## Paths and small string helpers (filepath.Dir / Base / Join) -/

/-- `bootstrapDirectory` constant of the source. -/
def bootstrapDirectory : String := "/tmp/ansible-terraform-bootstrap"

/-- Split a character list at every occurrence of a separator. -/
def splitOnChar (sep : Char) : List Char → List (List Char)
  | [] => [[]]
  | c :: cs =>
    if c = sep then [] :: splitOnChar sep cs
    else match splitOnChar sep cs with
      | h :: t => (c :: h) :: t
      | [] => [[c]]

/-- Model of Go `filepath.Dir` for the slash-separated paths this program uses. -/
def dirName (p : String) : String :=
  match (splitOnChar '/' p.data).dropLast with
  | [] => "."
  | [[]] => "/"
  | parts => ⟨List.intercalate ['/'] parts⟩

/-- Model of Go `filepath.Base` for the slash-separated paths this program uses. -/
def baseName (p : String) : String :=
  match (splitOnChar '/' p.data).getLast? with
  | some s => if s = [] then "/" else ⟨s⟩
  | none => "."

/-- Model of Go `filepath.Join` on two components. -/
def joinPath (a b : String) : String := a ++ "/" ++ b

/-- `inventoryFilePath` of the source:
`filepath.Join(bootstrapDirectory, ".inventory-ansible-bootstrap/hosts")`. -/
def inventoryFilePath : String :=
  joinPath bootstrapDirectory ".inventory-ansible-bootstrap/hosts"

/-! ## Raw configuration values and JSON marshalling -/

/-- A JSON-serialisable scalar value, the kind of value `extra_vars` holds. -/
inductive JsonV where
  | null
  | str (s : String)
  | num (n : Int)
  | boolean (b : Bool)
deriving DecidableEq, Repr

/-- A raw dynamic value handed to `getStringList` / `getStringMap`
(Go `interface\x7b\x7d`). -/
inductive ConfigValue where
  | nil
  | str (s : String)
  | num (n : Int)
  | boolean (b : Bool)
  | list (xs : List ConfigValue)
  | map (kvs : List (String × JsonV))

/-- JSON string escaping used by `encoding/json` (quotes and backslashes). -/
def jsonEscape (s : String) : String :=
  String.join (s.toList.map (fun c =>
    if c = '"' then "\\\"" else if c = '\\' then "\\\\" else String.singleton c))

/-- JSON serialisation of a scalar value. -/
def jsonScalar : JsonV → String
  | .null => "null"
  | .str s => "\"" ++ jsonEscape s ++ "\""
  | .num n => toString n
  | .boolean b => if b then "true" else "false"

/-- Byte-wise comparison of character lists, the order `encoding/json`
sorts map keys by. -/
def charsLe : List Char → List Char → Bool
  | [], _ => true
  | _ :: _, [] => false
  | a :: as, b :: bs => if a.toNat = b.toNat then charsLe as bs else a.toNat ≤ b.toNat

/-- Model of `json.Marshal` on a `map[string]interface\x7b\x7d`: keys are
serialised in sorted order, as `encoding/json` does for Go maps. -/
def jsonMarshalMap (kvs : List (String × JsonV)) : String :=
  let sorted := List.insertionSort (fun a b : String × JsonV => charsLe a.1.data b.1.data) kvs
  "\x7b" ++ String.intercalate ","
    (sorted.map (fun kv => "\"" ++ jsonEscape kv.1 ++ "\":" ++ jsonScalar kv.2)) ++ "\x7d"

/-! ## The provisioner settings struct -/

/-- The `provisioner` struct of the source, with the same fields. -/
structure provisioner where
  Playbook : String
  Hosts : List String
  Groups : List String
  Tags : List String
  SkipTags : List String
  StartAtTask : String
  Limit : String
  Forks : Int
  ExtraVars : List (String × JsonV)
  Verbose : Bool
  ForceHandlers : Bool
  Become : Bool
  BecomeMethod : String
  BecomeUser : String
  VaultPasswordFile : String
  useSudo : Bool
  skipInstall : Bool
  skipCleanup : Bool
  installVersion : String
deriving DecidableEq, Repr

/-! ## commandBuilder -/

/-- `commandBuilder` of the source, translated statement by statement: each
Go `fmt.Sprintf("%s ...", command, x)` rebinding becomes a `let` that appends
to the accumulated command. `json.Marshal` cannot fail on the value types
`JsonV` admits, so the marshal step is a plain `let`; the `Except` result
type keeps the source signature `(string, error)`. -/
def commandBuilder (p : provisioner) (playbookFile : String)
    (uploadedVaultPasswordFilePath : String) : Except String String :=
  let command := "ansible-playbook " ++ playbookFile
  let command := command ++ (" --inventory-file=" ++ inventoryFilePath)
  let command := if p.ExtraVars.length > 0 then
      command ++ (" --extra-vars=\x27" ++ jsonMarshalMap p.ExtraVars ++ "\x27")
    else command
  let command := if p.SkipTags.length > 0 then
      command ++ (" --skip-tags=" ++ String.intercalate "," p.SkipTags)
    else command
  let command := if p.Tags.length > 0 then
      command ++ (" --tags=" ++ String.intercalate "," p.Tags)
    else command
  let command := if uploadedVaultPasswordFilePath.length > 0 then
      command ++ (" --vault-password-file=" ++ uploadedVaultPasswordFilePath)
    else command
  let command := if p.StartAtTask.length > 0 then
      command ++ (" --start-at-task=" ++ p.StartAtTask)
    else command
  let command := if p.Limit.length > 0 then
      command ++ (" --limit=" ++ p.Limit)
    else command
  let command := if p.Forks > 0 then
      command ++ (" --forks=" ++ toString p.Forks)
    else command
  let command := if p.Verbose then command ++ " --verbose" else command
  let command := if p.ForceHandlers then command ++ " --force-handlers" else command
  let command := if p.Become then
      command ++ (" --become --become-method=\x27" ++ p.BecomeMethod
        ++ "\x27 --become-user=\x27" ++ p.BecomeUser ++ "\x27")
    else command
  Except.ok command

/-! Per-flag fragments, written from the specification's description of the
command line (each settable field contributes its flag when set and nothing
when empty/zero/false); `commandBuilder` is proved to refine their fixed-order
concatenation. -/

/-- Fragment the spec assigns to `extra-vars`. -/
def extraVarsFlag (p : provisioner) : String :=
  if p.ExtraVars.length > 0 then
    " --extra-vars=\x27" ++ jsonMarshalMap p.ExtraVars ++ "\x27" else ""

/-- Fragment the spec assigns to `skip-tags`. -/
def skipTagsFlag (p : provisioner) : String :=
  if p.SkipTags.length > 0 then " --skip-tags=" ++ String.intercalate "," p.SkipTags else ""

/-- Fragment the spec assigns to `tags`. -/
def tagsFlag (p : provisioner) : String :=
  if p.Tags.length > 0 then " --tags=" ++ String.intercalate "," p.Tags else ""

/-- Fragment the spec assigns to `vault-password-file`. -/
def vaultPasswordFlag (uploadedVaultPasswordFilePath : String) : String :=
  if uploadedVaultPasswordFilePath.length > 0 then
    " --vault-password-file=" ++ uploadedVaultPasswordFilePath else ""

/-- Fragment the spec assigns to `start-at-task`. -/
def startAtTaskFlag (p : provisioner) : String :=
  if p.StartAtTask.length > 0 then " --start-at-task=" ++ p.StartAtTask else ""

/-- Fragment the spec assigns to `limit`. -/
def limitFlag (p : provisioner) : String :=
  if p.Limit.length > 0 then " --limit=" ++ p.Limit else ""

/-- Fragment the spec assigns to `forks` (only when greater than zero). -/
def forksFlag (p : provisioner) : String :=
  if p.Forks > 0 then " --forks=" ++ toString p.Forks else ""

/-- Fragment the spec assigns to `verbose`. -/
def verboseFlag (p : provisioner) : String :=
  if p.Verbose then " --verbose" else ""

/-- Fragment the spec assigns to `force-handlers`. -/
def forceHandlersFlag (p : provisioner) : String :=
  if p.ForceHandlers then " --force-handlers" else ""

/-- Fragment the spec assigns to `become` with its method and user. -/
def becomeFlag (p : provisioner) : String :=
  if p.Become then
    " --become --become-method=\x27" ++ p.BecomeMethod
      ++ "\x27 --become-user=\x27" ++ p.BecomeUser ++ "\x27" else ""

/-! ## retryFunc

`retryFunc(timeout, f)` loops: call `f`; on success return nil; otherwise
race the overall timeout against a 3-second sleep and retry.  The embedding
replaces wall-clock time by the number of further attempts the timeout still
allows (`budget`) and indexes the attempts so that `f` may answer differently
on each call: `f k = none` means attempt `k` succeeded, `some e` that it
failed with error `e`. -/

/-- `retryFunc` of the source. `k` is the index of the current attempt,
`budget` the number of retries the timeout will still permit. -/
def retryFunc {ε : Type} (f : Nat → Option ε) : Nat → Nat → Option ε
  | k, budget =>
    match f k, budget with
    | none, _ => none
    | some e, 0 => some e
    | some _, Nat.succ b => retryFunc f (k + 1) b

/-! ## Decoding the resource data -/

/-- The typed values `d.Get` yields for each schema key (the schema declares
the key types and defaults, so the scalar keys arrive as scalars; the list
and map keys arrive as raw dynamic values that `getStringList` /
`getStringMap` coerce). -/
structure ResourceData where
  playbook : String
  hosts : ConfigValue
  groups : ConfigValue
  tags : ConfigValue
  skip_tags : ConfigValue
  start_at_task : String
  limit : String
  forks : Int
  extra_vars : ConfigValue
  verbose : Bool
  force_handlers : Bool
  become : Bool
  become_method : String
  become_user : String
  vault_password_file : String
  use_sudo : Bool
  skip_install : Bool
  skip_cleanup : Bool
  install_version : String

/-- `getStringList` of the source: `nil` becomes the empty list, a raw list
keeps exactly its string elements, and any other type panics (modelled as
`Except.error`). -/
def getStringList : ConfigValue → Except String (List String)
  | .nil => .ok []
  | .list xs => .ok (xs.filterMap (fun v => match v with | .str s => some s | _ => none))
  | _ => .error "Unsupported type"

/-- `getStringMap` of the source: `nil` becomes the empty map, a raw map is
kept, and any other type panics (modelled as `Except.error`). -/
def getStringMap : ConfigValue → Except String (List (String × JsonV))
  | .nil => .ok []
  | .map kvs => .ok kvs
  | _ => .error "Unsupported type"

/-- `decodeConfig` of the source: build the `provisioner` from the resource
data, then append the synthetic `"localhost"` host. -/
def decodeConfig (d : ResourceData) : Except String provisioner := do
  let hosts ← getStringList d.hosts
  let groups ← getStringList d.groups
  let tags ← getStringList d.tags
  let skipTags ← getStringList d.skip_tags
  let extraVars ← getStringMap d.extra_vars
  let p : provisioner := {
    Playbook := d.playbook
    Hosts := hosts
    Groups := groups
    Tags := tags
    SkipTags := skipTags
    StartAtTask := d.start_at_task
    Limit := d.limit
    Forks := d.forks
    ExtraVars := extraVars
    Verbose := d.verbose
    ForceHandlers := d.force_handlers
    Become := d.become
    BecomeMethod := d.become_method
    BecomeUser := d.become_user
    VaultPasswordFile := d.vault_password_file
    useSudo := d.use_sudo
    skipInstall := d.skip_install
    skipCleanup := d.skip_cleanup
    installVersion := d.install_version }
  pure { p with Hosts := p.Hosts ++ ["localhost"] }

/-- Resource data holding every schema default (hosts, groups, tags,
skip_tags and extra_vars unset). -/
def baseRD : ResourceData := {
  playbook := "~/ansible/playbook.yaml"
  hosts := .nil
  groups := .nil
  tags := .nil
  skip_tags := .nil
  start_at_task := ""
  limit := ""
  forks := 0
  extra_vars := .nil
  verbose := false
  force_handlers := false
  become := false
  become_method := "sudo"
  become_user := "user"
  vault_password_file := ""
  use_sudo := true
  skip_install := false
  skip_cleanup := false
  install_version := "" }

/-- The provisioner `decodeConfig` produces from `baseRD`. -/
def cfgBase : provisioner := {
  Playbook := "~/ansible/playbook.yaml"
  Hosts := ["localhost"]
  Groups := []
  Tags := []
  SkipTags := []
  StartAtTask := ""
  Limit := ""
  Forks := 0
  ExtraVars := []
  Verbose := false
  ForceHandlers := false
  Become := false
  BecomeMethod := "sudo"
  BecomeUser := "user"
  VaultPasswordFile := ""
  useSudo := true
  skipInstall := false
  skipCleanup := false
  installVersion := "" }

/-! ## Inventory rendering

`uploadInventory` executes `inventoryTemplate` on the provisioner.  With the
template's trim markers resolved, Go `text/template` denotes the template as
the following concatenation: one `<host> ansible_connection=local\n` line per
host, a fixed `"\n\n"` (the newline ending the `\x7b\x7bend\x7d\x7d` line plus the blank
line), then for every group a `[<group>]\n` header, the full host-line block
again, and another fixed `"\n\n"`. -/

/-- Concatenate the rendering of each element, in order (the denotation of a
`range` action over a list). -/
def strConcatMap {α : Type} (f : α → String) : List α → String
  | [] => ""
  | a :: as => f a ++ strConcatMap f as

/-- The lines the template emits for the host list. -/
def hostLines (hosts : List String) : String :=
  strConcatMap (fun h => h ++ " ansible_connection=local\n") hosts

/-- The section the template emits for one group: its bracketed header and
the full host list. -/
def groupSection (hosts : List String) (g : String) : String :=
  "[" ++ g ++ "]\n" ++ hostLines hosts ++ "\n\n"

/-- Denotation of `inventoryTemplate` applied to `(hosts, groups)`. -/
def renderInventory (hosts groups : List String) : String :=
  hostLines hosts ++ "\n\n" ++ strConcatMap (groupSection hosts) groups

/-! ## The workflow

The external collaborators of `applyFn` — the communicator, the filesystem
and the home-directory expansion — are an oracle `Env`.  Each workflow
function returns its source result together with the ordered list of
observable actions (`WEv`) it performed, so that ordering, phase and
disconnect properties can be stated. -/

/-- Outcome of submitting one command to the communicator:
`comm.Start` fails, or the command runs and records an exit status. -/
inductive CommResult where
  | startErr (msg : String)
  | exited (status : Int)
deriving DecidableEq, Repr

/-- The structured errors the workflow can return. -/
inductive Err where
  | decodeFailed (msg : String)
  | commNewFailed (msg : String)
  | connectFailed (msg : String)
  | resolveFailed (path : String)
  | transport (command : String) (msg : String)
  | exitStatus (command : String) (status : Int)
  | uploadDirFailed (msg : String)
  | uploadFailed (target : String) (msg : String)
  | openFailed (msg : String)
  | encodeFailed (msg : String)
deriving DecidableEq, Repr

/-- Observable workflow actions, in the order they are performed. -/
inductive WEv where
  | connected
  | install (ansibleVersion : String)
  | command (cmd : String)
  | uploadDir
  | rendered (text : String)
  | upload (target : String)
  | build
  | cleanup
  | disconnect
deriving DecidableEq, Repr

/-- Behaviour of the external collaborators during one invocation. -/
structure Env where
  /-- `communicator.New` error, if any. -/
  commNew : Option String
  /-- `comm.Connect` outcome per attempt index (`none` = connected). -/
  connect : Nat → Option String
  /-- how many retries `comm.Timeout()` still allows (see `retryFunc`). -/
  connectBudget : Nat
  /-- `homedir.Expand`. -/
  homedirExpand : String → String
  /-- whether `os.Stat` succeeds on an expanded path. -/
  statOk : String → Bool
  /-- `comm.UploadDir` error, if any. -/
  uploadDirErr : Option String
  /-- `comm.UploadScript` error, if any. -/
  uploadScriptErr : Option String
  /-- `os.Open` outcome per path. -/
  openErr : String → Option String
  /-- `comm.Upload` outcome per target path. -/
  uploadErr : String → Option String
  /-- `comm.Start` + `cmd.Wait` outcome per submitted command string. -/
  run : String → CommResult

/-- The command string `runCommand` submits: the sudo prefix is applied
unless prevented. -/
def runCommandFull (useSudo : Bool) (command : String) : String :=
  if useSudo then "sudo " ++ command else command

/-- `runCommand` of the source: prefix with sudo unless prevented, submit;
a submission failure is returned at once; otherwise a non-zero recorded
exit status becomes a command-failure error carrying the command string and
the status, and exit status 0 yields no error. -/
def runCommand (useSudo : Bool) (run : String → CommResult) (command : String) : Option Err :=
  let command := runCommandFull useSudo command
  match run command with
  | .startErr m => some (.transport command m)
  | .exited st => if st ≠ 0 then some (.exitStatus command st) else none

/-- `resolvePath` of the source: expand the home directory, accept the
expanded path iff `os.Stat` succeeds on it. -/
def resolvePath (env : Env) (path : String) : Except Err String :=
  let expandedPath := env.homedirExpand path
  if env.statOk expandedPath then .ok expandedPath
  else .error (.resolveFailed path)

/-- `uploadVaultPasswordFile` of the source.  The two preparation commands
are run and their results discarded (the `let _`), exactly as the source
ignores the `runCommand` return value; then the file is opened and
uploaded. -/
def uploadVaultPasswordFile (p : provisioner) (env : Env) (passwordFilePath : String) :
    Except Err String × List WEv :=
  let passwordFileName := baseName passwordFilePath
  let targetPath := joinPath (joinPath bootstrapDirectory ".vault-ansible-bootstrap") passwordFileName
  let commands := ["mkdir -p " ++ dirName targetPath, "chmod 0777 " ++ dirName targetPath]
  let _ := commands.map (fun command => runCommand p.useSudo env.run command)
  let evs := commands.map (fun command => WEv.command (runCommandFull p.useSudo command))
  match env.openErr passwordFilePath with
  | some m => (.error (.openFailed m), evs)
  | none =>
    match env.uploadErr targetPath with
    | some m => (.error (.uploadFailed targetPath m), evs ++ [WEv.upload targetPath])
    | none => (.ok targetPath, evs ++ [WEv.upload targetPath])

/-- `uploadInventory` of the source: render the inventory, run the two
preparation commands discarding their results, then upload the rendered
bytes to `inventoryFilePath`. -/
def uploadInventory (p : provisioner) (env : Env) : Option Err × List WEv :=
  let buf := renderInventory p.Hosts p.Groups
  let targetPath := inventoryFilePath
  let commands := ["mkdir -p " ++ dirName targetPath, "chmod 0777 " ++ dirName targetPath]
  let _ := commands.map (fun command => runCommand p.useSudo env.run command)
  let evs := WEv.rendered buf ::
    commands.map (fun command => WEv.command (runCommandFull p.useSudo command))
  match env.uploadErr targetPath with
  | some m => (some (.uploadFailed targetPath m), evs ++ [WEv.upload targetPath])
  | none => (none, evs ++ [WEv.upload targetPath])

/-- `cleanupAfterBootstrap` of the source: run the removal command and
discard its result; the function has no error output at all. -/
def cleanupAfterBootstrap (p : provisioner) (env : Env) : List WEv :=
  let command := "rm -rf " ++ dirName bootstrapDirectory
  let _ := runCommand p.useSudo env.run command
  [WEv.command (runCommandFull p.useSudo command), WEv.cleanup]

/-- `installAnsible` of the source: choose the version string, upload the
installer script, run it (and remove it) through `runCommand`. -/
def installAnsible (p : provisioner) (env : Env) : Option Err × List WEv :=
  let ansibleVersion := if p.installVersion.length > 0
    then "ansible==" ++ p.installVersion else "ansible"
  let targetPath := "/tmp/ansible-install.sh"
  match env.uploadScriptErr with
  | some m => (some (.uploadFailed targetPath m), [WEv.install ansibleVersion])
  | none =>
    let command := "/bin/bash -c \x27" ++ targetPath ++ " && rm " ++ targetPath ++ "\x27"
    (runCommand p.useSudo env.run command,
     [WEv.install ansibleVersion, WEv.command (runCommandFull p.useSudo command)])

/-- The vault-password-file step of `deployAnsibleModule`: skipped when the
setting is empty, otherwise resolve the local path and upload the file. -/
def vaultStep (p : provisioner) (env : Env) : Except Err String × List WEv :=
  if p.VaultPasswordFile.length > 0 then
    match resolvePath env p.VaultPasswordFile with
    | .error e => (.error e, [])
    | .ok vaultPasswordFilePath => uploadVaultPasswordFile p env vaultPasswordFilePath
  else (.ok "", [])

/-- `deployAnsibleModule` of the source, with the source's statement order:
resolve the playbook, upload the playbook directory, optionally upload the
vault password file, build the command, upload the inventory, run the
command, and clean up unless skipped (the cleanup outcome is discarded). -/
def deployAnsibleModule (p : provisioner) (env : Env) : Option Err × List WEv :=
  match resolvePath env p.Playbook with
  | .error e => (some e, [])
  | .ok playbookPath =>
    let remotePlaybookPath := joinPath bootstrapDirectory (baseName playbookPath)
    match env.uploadDirErr with
    | some m => (some (.uploadDirFailed m), [WEv.uploadDir])
    | none =>
      match vaultStep p env with
      | (.error e, evs1) => (some e, WEv.uploadDir :: evs1)
      | (.ok uploadedVaultPasswordFilePath, evs1) =>
        match commandBuilder p remotePlaybookPath uploadedVaultPasswordFilePath with
        | .error m => (some (.encodeFailed m), WEv.uploadDir :: evs1)
        | .ok command =>
          match uploadInventory p env with
          | (some e, evs2) => (some e, WEv.uploadDir :: (evs1 ++ WEv.build :: evs2))
          | (none, evs2) =>
            let runEv := WEv.command (runCommandFull p.useSudo command)
            match runCommand p.useSudo env.run command with
            | some e => (some e, WEv.uploadDir :: (evs1 ++ WEv.build :: (evs2 ++ [runEv])))
            | none =>
              if !p.skipCleanup then
                (none, WEv.uploadDir ::
                  (evs1 ++ WEv.build :: (evs2 ++ runEv :: cleanupAfterBootstrap p env)))
              else
                (none, WEv.uploadDir :: (evs1 ++ WEv.build :: (evs2 ++ [runEv])))

/-- `applyFn` of the source: decode, create the communicator, connect with
retry, then (`defer comm.Disconnect()`) install unless skipped and deploy;
the disconnect action closes the trace on every path on which the
connection was established, and only on those. -/
def applyFn (env : Env) (d : ResourceData) : Option Err × List WEv :=
  match decodeConfig d with
  | .error m => (some (.decodeFailed m), [])
  | .ok p =>
    match env.commNew with
    | some m => (some (.commNewFailed m), [])
    | none =>
      match retryFunc env.connect 0 env.connectBudget with
      | some m => (some (.connectFailed m), [])
      | none =>
        let body : Option Err × List WEv :=
          if !p.skipInstall then
            match installAnsible p env with
            | (some e, evs) => (some e, evs)
            | (none, evs) =>
              let r := deployAnsibleModule p env
              (r.1, evs ++ r.2)
          else deployAnsibleModule p env
        (body.1, WEv.connected :: (body.2 ++ [WEv.disconnect]))

/-- A connect oracle that fails on every attempt. -/
def failF : Nat → Option String := fun k => some ("e" ++ toString k)

/-- A connect oracle that fails once, then succeeds. -/
def mixF : Nat → Option String := fun k => if k = 0 then some "e0" else none

/-- A communicator on which every command exits 0. -/
def runExit0 : String → CommResult := fun _ => .exited 0

/-- A communicator on which every command exits 2. -/
def runExit2 : String → CommResult := fun _ => .exited 2

/-- A communicator on which every submission fails. -/
def runBoom : String → CommResult := fun _ => .startErr "boom"

/-- An environment in which every external call succeeds and every command
exits 0. -/
def envOk : Env := {
  commNew := none
  connect := fun _ => none
  connectBudget := 0
  homedirExpand := id
  statOk := fun _ => true
  uploadDirErr := none
  uploadScriptErr := none
  openErr := fun _ => none
  uploadErr := fun _ => none
  run := fun _ => .exited 0 }

/-- Like `envOk`, except that the cleanup removal command fails to start. -/
def envCleanupFails : Env :=
  { envOk with run := fun c => if c = "sudo rm -rf /tmp" then .startErr "cleanup denied"
                               else .exited 0 }

/-- Like `envOk`, except that every command submission fails (in particular
the two upload-preparation commands). -/
def envPrepFail : Env := { envOk with run := fun _ => .startErr "prep failed" }

/-- Like `envOk`, except that connecting always fails. -/
def envNoConnect : Env := { envOk with connect := fun _ => some "refused" }

/-- Resource data with `skip_install` enabled and everything else default. -/
def rdSkipInstall : ResourceData := { baseRD with skip_install := true }

/-- The provisioner `decodeConfig` produces from `rdSkipInstall`. -/
def cfgSkipInstall : provisioner := { cfgBase with skipInstall := true }

/-- The command `commandBuilder` produces for the default configuration and
the uploaded playbook path. -/
def cmdBase : String :=
  "ansible-playbook /tmp/ansible-terraform-bootstrap/playbook.yaml --inventory-file=/tmp/ansible-terraform-bootstrap/.inventory-ansible-bootstrap/hosts"

/-- The action trace `applyFn` produces in `envOk` on `rdSkipInstall`. -/
def cexTrace : List WEv :=
  [WEv.connected, WEv.uploadDir, WEv.build,
   WEv.rendered "localhost ansible_connection=local\n\n\n",
   WEv.command "sudo mkdir -p /tmp/ansible-terraform-bootstrap/.inventory-ansible-bootstrap",
   WEv.command "sudo chmod 0777 /tmp/ansible-terraform-bootstrap/.inventory-ansible-bootstrap",
   WEv.upload "/tmp/ansible-terraform-bootstrap/.inventory-ansible-bootstrap/hosts",
   WEv.command ("sudo " ++ cmdBase),
   WEv.command "sudo rm -rf /tmp", WEv.cleanup, WEv.disconnect]

/-- Resource data whose explicitly configured hosts already contain
`"localhost"`. -/
def localhostRD : ResourceData := { baseRD with hosts := .list [.str "localhost"] }

/-- Resource data with hosts `["web1"]` and groups `["app"]`. -/
def rdWeb1App : ResourceData :=
  { baseRD with hosts := .list [.str "web1"], groups := .list [.str "app"] }

end TfAnsible

namespace RunSync

/-! ## Synchronisation skeleton of `runCommand`

After `comm.Start` succeeds, `runCommand` runs three concurrent parties:
the remote process (which writes lines into the stdout and stderr pipes and
eventually reports completion, unblocking `cmd.Wait()`), and the two
`copyOutput` relays, each of which forwards lines from its pipe to the
output sink until it observes end-of-stream and then closes its done
channel.  The main thread waits for completion, closes both pipe write ends
(a later write to a closed pipe fails and the line is lost), then receives
from both done channels before returning.  This section models that
synchronisation as a labelled transition system with an interleaving
scheduler and proves that no relay can emit a line after `runCommand` has
returned, on any schedule. -/

/-- State of one `copyOutput` relay: still reading, or done channel closed. -/
inductive RelaySt where
  | running
  | done
deriving DecidableEq, Repr

/-- Program counter of the main thread of `runCommand` after a successful
submission. -/
inductive MainPc where
  | waitingProc
  | closingOut
  | closingErr
  | awaitingOut
  | awaitingErr
  | returned
deriving DecidableEq, Repr

/-- One `io.Pipe`, at line granularity: buffered lines not yet read, and
whether the write end has been closed. -/
structure Pipe where
  buf : List String
  closed : Bool
deriving DecidableEq, Repr

/-- Global state: the remote process's pending output, whether it has
completed, the two pipes, the two relays and the main thread. -/
structure St where
  procOut : List String
  procErr : List String
  procDone : Bool
  outPipe : Pipe
  errPipe : Pipe
  outRelay : RelaySt
  errRelay : RelaySt
  main : MainPc
deriving DecidableEq, Repr

/-- Observable labels: internal step, a relay forwarding a line to the
output sink, or `runCommand` returning. -/
inductive Label where
  | tau
  | emit (line : String)
  | ret
deriving DecidableEq, Repr

/-- Interleaving small-step semantics of the three parties. -/
inductive Step : St → Label → St → Prop where
  | procWriteOut (s : St) (l : String) (rest : List String) :
      s.procOut = l :: rest → s.outPipe.closed = false →
      Step s .tau { s with procOut := rest,
                           outPipe := { buf := s.outPipe.buf ++ [l], closed := s.outPipe.closed } }
  | procWriteOutClosed (s : St) (l : String) (rest : List String) :
      s.procOut = l :: rest → s.outPipe.closed = true →
      Step s .tau { s with procOut := rest }
  | procWriteErr (s : St) (l : String) (rest : List String) :
      s.procErr = l :: rest → s.errPipe.closed = false →
      Step s .tau { s with procErr := rest,
                           errPipe := { buf := s.errPipe.buf ++ [l], closed := s.errPipe.closed } }
  | procWriteErrClosed (s : St) (l : String) (rest : List String) :
      s.procErr = l :: rest → s.errPipe.closed = true →
      Step s .tau { s with procErr := rest }
  | procExit (s : St) :
      s.procDone = false →
      Step s .tau { s with procDone := true }
  | relayOutEmit (s : St) (l : String) (rest : List String) :
      s.outRelay = .running → s.outPipe.buf = l :: rest →
      Step s (.emit l) { s with outPipe := { buf := rest, closed := s.outPipe.closed } }
  | relayOutEof (s : St) :
      s.outRelay = .running → s.outPipe.buf = [] → s.outPipe.closed = true →
      Step s .tau { s with outRelay := .done }
  | relayErrEmit (s : St) (l : String) (rest : List String) :
      s.errRelay = .running → s.errPipe.buf = l :: rest →
      Step s (.emit l) { s with errPipe := { buf := rest, closed := s.errPipe.closed } }
  | relayErrEof (s : St) :
      s.errRelay = .running → s.errPipe.buf = [] → s.errPipe.closed = true →
      Step s .tau { s with errRelay := .done }
  | mainWaitDone (s : St) :
      s.main = .waitingProc → s.procDone = true →
      Step s .tau { s with main := .closingOut }
  | mainCloseOut (s : St) :
      s.main = .closingOut →
      Step s .tau { s with main := .closingErr,
                           outPipe := { buf := s.outPipe.buf, closed := true } }
  | mainCloseErr (s : St) :
      s.main = .closingErr →
      Step s .tau { s with main := .awaitingOut,
                           errPipe := { buf := s.errPipe.buf, closed := true } }
  | mainAwaitOut (s : St) :
      s.main = .awaitingOut → s.outRelay = .done →
      Step s .tau { s with main := .awaitingErr }
  | mainAwaitErr (s : St) :
      s.main = .awaitingErr → s.errRelay = .done →
      Step s .ret { s with main := .returned }

/-- Executions: reflexive-transitive closure of `Step`, collecting labels. -/
inductive Exec : St → List Label → St → Prop where
  | refl (s : St) : Exec s [] s
  | step {s s' s'' : St} {l : Label} {ls : List Label} :
      Step s l s' → Exec s' ls s'' → Exec s (l :: ls) s''

/-- Initial state right after `comm.Start` succeeded: the process will
produce the given stdout and stderr lines, nothing buffered, pipes open,
relays running, main thread blocked in `cmd.Wait()`. -/
def init (outLines errLines : List String) : St := {
  procOut := outLines
  procErr := errLines
  procDone := false
  outPipe := { buf := [], closed := false }
  errPipe := { buf := [], closed := false }
  outRelay := .running
  errRelay := .running
  main := .waitingProc }

/-- A state in which `runCommand` has returned and both relays have
observed end-of-stream. -/
def Quiet (s : St) : Prop :=
  s.outRelay = .done ∧ s.errRelay = .done ∧ s.main = .returned

/-- Inductive invariant: the main thread only passes an await point once the
corresponding relay has signalled completion. -/
def Inv (s : St) : Prop :=
  (s.main = .awaitingErr → s.outRelay = .done)
  ∧ (s.main = .returned → s.outRelay = .done ∧ s.errRelay = .done)

/-- The final state of the zero-output execution: process done, pipes
closed and drained, relays done, main thread returned. -/
def quietFinal : St := {
  procOut := []
  procErr := []
  procDone := true
  outPipe := { buf := [], closed := true }
  errPipe := { buf := [], closed := true }
  outRelay := .done
  errRelay := .done
  main := .returned }

end RunSync

namespace TfAnsible

/-! ## Theorems -/

/-- Conditionally appending to an accumulated string equals appending a
conditional fragment. -/
theorem ite_append (c : Prop) [Decidable c] (x f : String) :
    (if c then x ++ f else x) = x ++ (if c then f else "") := by
  split <;> simp

/-- Claim C1: `commandBuilder` emits `ansible-playbook <playbookFile>`
followed by `--inventory-file=<inventoryFilePath>` always, then the
conditionally-appended flags in exactly the order extra-vars, skip-tags,
tags, vault-password-file, start-at-task, limit, forks (only if positive),
verbose, force-handlers, become (with method and user); an unset field
contributes no flag, in particular `Forks = 0` yields no `--forks` flag and
`Forks = 5` yields `--forks=5`. -/
theorem commandBuilder_fixed_flag_order (p : provisioner) (playbookFile vp : String) :
    commandBuilder p playbookFile vp =
      Except.ok ("ansible-playbook " ++ playbookFile
        ++ (" --inventory-file=" ++ inventoryFilePath)
        ++ extraVarsFlag p ++ skipTagsFlag p ++ tagsFlag p ++ vaultPasswordFlag vp
        ++ startAtTaskFlag p ++ limitFlag p ++ forksFlag p ++ verboseFlag p
        ++ forceHandlersFlag p ++ becomeFlag p)
    ∧ (p.Forks = 0 → forksFlag p = "")
    ∧ forksFlag { cfgBase with Forks := 5 } = " --forks=5" := by
  refine ⟨?_, fun h => by simp [forksFlag, h], by rfl⟩
  unfold commandBuilder extraVarsFlag skipTagsFlag tagsFlag vaultPasswordFlag
    startAtTaskFlag limitFlag forksFlag verboseFlag forceHandlersFlag becomeFlag
  simp only [ite_append]

/-- Witness for C1: the `Forks = 0` hypothesis discharged at the default
configuration, next to the `Forks = 5` evaluation. -/
theorem commandBuilder_fixed_flag_order_witness :
    forksFlag cfgBase = "" ∧ forksFlag { cfgBase with Forks := 5 } = " --forks=5" :=
  ⟨(commandBuilder_fixed_flag_order cfgBase "" "").2.1 rfl,
   (commandBuilder_fixed_flag_order cfgBase "" "").2.2⟩

/-- When every attempt fails, `retryFunc` runs through its whole budget and
answers whatever the final attempt answered. -/
theorem retryFunc_all_fail {ε : Type} (f : Nat → Option ε) (h : ∀ k, (f k).isSome) :
    ∀ (b k : Nat), retryFunc f k b = f (k + b) := by
  intro b
  induction b with
  | zero =>
    intro k
    cases hf : f k with
    | none => exact absurd (hf ▸ h k) (by simp)
    | some e => simp [retryFunc, hf]
  | succ b ih =>
    intro k
    cases hf : f k with
    | none => exact absurd (hf ▸ h k) (by simp)
    | some e =>
      have : retryFunc f k (b + 1) = retryFunc f (k + 1) b := by simp [retryFunc, hf]
      rw [this, ih (k + 1)]
      congr 1
      omega

/-- When the first success happens within the budget, `retryFunc` answers
`none`. -/
theorem retryFunc_first_success {ε : Type} (f : Nat → Option ε) :
    ∀ (j b k : Nat), j ≤ b → f (k + j) = none → (∀ i, i < j → (f (k + i)).isSome) →
    retryFunc f k b = none := by
  intro j
  induction j with
  | zero =>
    intro b k _ hnone _
    simp only [Nat.add_zero] at hnone
    cases b <;> simp [retryFunc, hnone]
  | succ j ih =>
    intro b k hle hnone hmin
    have h0 : (f (k + 0)).isSome := hmin 0 (Nat.succ_pos j)
    cases hf : f k with
    | none => cases b <;> simp [retryFunc, hf]
    | some e =>
      cases b with
      | zero => omega
      | succ b =>
        have hrec : retryFunc f k (b + 1) = retryFunc f (k + 1) b := by
          simp [retryFunc, hf]
        rw [hrec]
        refine ih b (k + 1) (by omega) (by rw [show k + 1 + j = k + (j + 1) by omega]; exact hnone)
          (fun i hi => ?_)
        rw [show k + 1 + i = k + (i + 1) by omega]
        exact hmin (i + 1) (by omega)

/-- Claim C2: with a budget of `n` further retries, if every attempt of `f`
fails then `retryFunc` terminates with the error of the most recent (final)
attempt — by type it can only surface an error produced by `f`, never a
separate timeout marker — and if an attempt succeeds first, it returns
`none` (nil). -/
theorem retryFunc_returns_last_error {ε : Type} (f : Nat → Option ε) (n : Nat) :
    ((∀ k, (f k).isSome) → retryFunc f 0 n = f n)
  ∧ (∀ k, k ≤ n → f k = none → (∀ j, j < k → (f j).isSome) → retryFunc f 0 n = none) := by
  constructor
  · intro h
    simpa using retryFunc_all_fail f h n 0
  · intro k hk hnone hmin
    exact retryFunc_first_success f k n 0 hk (by simpa using hnone)
      (fun i hi => by simpa using hmin i hi)

/-- Witness for C2 at concrete oracles: all attempts failing surfaces the
final attempt's error; a success within the budget yields nil. -/
theorem retryFunc_returns_last_error_witness :
    retryFunc failF 0 3 = failF 3 ∧ retryFunc mixF 0 5 = none :=
  ⟨(retryFunc_returns_last_error failF 3).1 (fun _ => rfl),
   (retryFunc_returns_last_error mixF 5).2 1 (by decide) rfl
     (fun j hj => by
        have hj0 : j = 0 := by omega
        subst hj0
        rfl)⟩

/-- Claim C3: for a command whose submission succeeds, `runCommand` returns
an error iff the recorded exit status is non-zero, and that error carries
the submitted command string and the numeric status; exit status 0 yields
`none`; a submission failure yields a transport error. -/
theorem runCommand_classifies (useSudo : Bool) (run : String → CommResult) (c : String) :
    (∀ st, run (runCommandFull useSudo c) = .exited st →
      ((runCommand useSudo run c = none ↔ st = 0)
        ∧ (st ≠ 0 → runCommand useSudo run c =
            some (.exitStatus (runCommandFull useSudo c) st))))
  ∧ (∀ m, run (runCommandFull useSudo c) = .startErr m →
      runCommand useSudo run c = some (.transport (runCommandFull useSudo c) m)) := by
  constructor
  · intro st hst
    constructor
    · by_cases h : st = 0 <;> simp [runCommand, hst, h]
    · intro hne
      simp [runCommand, hst, hne]
  · intro m hm
    simp [runCommand, hm]

/-- Witness for C3 at concrete communicators: exit 0 gives no error,
exit 2 gives the command-failure error with command text and status, and a
failed submission gives the transport error. -/
theorem runCommand_classifies_witness :
    (runCommand true runExit0 "ls" = none ↔ (0 : Int) = 0)
    ∧ runCommand true runExit2 "ls" = some (.exitStatus "sudo ls" 2)
    ∧ runCommand true runBoom "ls" = some (.transport "sudo ls" "boom") :=
  ⟨((runCommand_classifies true runExit0 "ls").1 0 rfl).1,
   ((runCommand_classifies true runExit2 "ls").1 2 rfl).2 (by decide),
   (runCommand_classifies true runBoom "ls").2 "boom" rfl⟩

/-- Claim C4 counterexample: when the explicitly configured hosts already
contain `"localhost"`, the decoded host list carries it twice, so it is not
present exactly once for every configuration input. -/
theorem decodeConfig_localhost_not_unique :
    (decodeConfig localhostRD).map (fun p => p.Hosts) = .ok ["localhost", "localhost"]
    ∧ (decodeConfig localhostRD).map (fun p => p.Hosts.count "localhost") = .ok 2 := by
  exact ⟨rfl, rfl⟩

/-- Claim C4 (amended): `decodeConfig` appends the synthetic `"localhost"`
entry once, after all explicitly configured hosts, so the host list is never
empty and ends with `"localhost"`; it is present exactly once whenever the
explicitly configured hosts do not already contain it. -/
theorem decodeConfig_localhost_appended (d : ResourceData) (p : provisioner)
    (h : decodeConfig d = .ok p) :
    ∃ xs, getStringList d.hosts = .ok xs ∧ p.Hosts = xs ++ ["localhost"]
      ∧ p.Hosts ≠ [] ∧ p.Hosts.getLast? = some "localhost"
      ∧ ("localhost" ∉ xs → p.Hosts.count "localhost" = 1) := by
  unfold decodeConfig at h
  cases hh : getStringList d.hosts with
  | error e => rw [hh] at h; simp [Bind.bind, Except.bind] at h
  | ok xs =>
    rw [hh] at h
    cases hg : getStringList d.groups with
    | error e => rw [hg] at h; simp [Bind.bind, Except.bind] at h
    | ok gs =>
      rw [hg] at h
      cases ht : getStringList d.tags with
      | error e => rw [ht] at h; simp [Bind.bind, Except.bind] at h
      | ok ts =>
        rw [ht] at h
        cases hs : getStringList d.skip_tags with
        | error e => rw [hs] at h; simp [Bind.bind, Except.bind] at h
        | ok ss =>
          rw [hs] at h
          cases he : getStringMap d.extra_vars with
          | error e => rw [he] at h; simp [Bind.bind, Except.bind] at h
          | ok evs =>
            rw [he] at h
            simp only [Bind.bind, Except.bind, pure, Except.pure, Except.ok.injEq] at h
            refine ⟨xs, rfl, ?_, ?_, ?_, ?_⟩
            · rw [← h]
            · rw [← h]; simp
            · rw [← h]; simp [List.getLast?_concat]
            · intro hmem
              rw [← h]
              simp [List.count_append, List.count_eq_zero_of_not_mem hmem]

/-- Witness for C4 (amended) at the default resource data. -/
theorem decodeConfig_localhost_appended_witness :
    ∃ xs, getStringList baseRD.hosts = .ok xs ∧ cfgBase.Hosts = xs ++ ["localhost"]
      ∧ cfgBase.Hosts ≠ [] ∧ cfgBase.Hosts.getLast? = some "localhost"
      ∧ ("localhost" ∉ xs → cfgBase.Hosts.count "localhost" = 1) :=
  decodeConfig_localhost_appended baseRD cfgBase rfl

/-- Every element of a list contributes its rendering, in place, to the
concatenated rendering. -/
theorem strConcatMap_of_mem {α : Type} (f : α → String) (gs : List α) (g : α)
    (hg : g ∈ gs) : ∃ pre post, strConcatMap f gs = pre ++ (f g ++ post) := by
  induction gs with
  | nil => cases hg
  | cons a as ih =>
    rcases List.mem_cons.mp hg with rfl | h2
    · exact ⟨"", strConcatMap f as, by simp [strConcatMap]⟩
    · obtain ⟨pre, post, hp⟩ := ih h2
      exact ⟨f a ++ pre, post, by simp [strConcatMap, hp, String.append_assoc]⟩

/-- Claim C5 counterexample: the rendering of hosts `["web1"]`, groups
`["app"]` is not the byte string the specification gives — the template
emits an additional newline after each host block (the newline ending the
`end` line plus the blank template line). -/
theorem renderInventory_exact_bytes_spec_mismatch :
    renderInventory ["web1"] ["app"] ≠
      "web1 ansible_connection=local\n\n[app]\nweb1 ansible_connection=local\n\n" := by
  decide

/-- Claim C5 (amended): inventory rendering is deterministic, every group
section lists the full host list, and for hosts `["web1"]`, groups `["app"]`
the rendered bytes are exactly
`web1 ansible_connection=local\n\n\n[app]\nweb1 ansible_connection=local\n\n\n`
(with the synthetic localhost line also present when rendering a decoded
configuration). -/
theorem renderInventory_deterministic_full_membership :
    (∀ hosts groups hosts2 groups2, hosts = hosts2 → groups = groups2 →
      renderInventory hosts groups = renderInventory hosts2 groups2)
  ∧ (∀ hosts groups g, g ∈ groups → ∃ pre post,
      renderInventory hosts groups = pre ++ (groupSection hosts g ++ post))
  ∧ renderInventory ["web1"] ["app"] =
      "web1 ansible_connection=local\n\n\n[app]\nweb1 ansible_connection=local\n\n\n"
  ∧ (decodeConfig rdWeb1App).map (fun p => renderInventory p.Hosts p.Groups) =
      .ok ("web1 ansible_connection=local\nlocalhost ansible_connection=local\n\n\n[app]\nweb1 ansible_connection=local\nlocalhost ansible_connection=local\n\n\n") := by
  refine ⟨fun h g h2 g2 hh hg => by rw [hh, hg], ?_, by rfl, by rfl⟩
  intro hosts groups g hg
  obtain ⟨pre, post, hp⟩ := strConcatMap_of_mem (groupSection hosts) groups g hg
  exact ⟨hostLines hosts ++ "\n\n" ++ pre, post, by
    simp [renderInventory, hp, String.append_assoc]⟩

/-- Witness for C5 (amended) at concrete hosts and groups. -/
theorem renderInventory_deterministic_full_membership_witness :
    renderInventory ["web1"] ["app"] = renderInventory ["web1"] ["app"]
    ∧ ∃ pre post, renderInventory ["web1"] ["app"] =
        pre ++ (groupSection ["web1"] "app" ++ post) :=
  ⟨(renderInventory_deterministic_full_membership).1 ["web1"] ["app"] ["web1"] ["app"] rfl rfl,
   (renderInventory_deterministic_full_membership).2.1 ["web1"] ["app"] "app" (by decide)⟩

/-- Claim C6: once the main command run succeeds (the Running phase
completed with exit status 0), `deployAnsibleModule` reports no error,
whatever the cleanup removal command does — the environment's behaviour on
the cleanup command is unconstrained, and `cleanupAfterBootstrap` has no
error output at all. -/
theorem cleanup_failure_never_overrides_success (p : provisioner) (env : Env)
    (playbookPath vp cmd : String)
    (h1 : resolvePath env p.Playbook = .ok playbookPath)
    (h2 : env.uploadDirErr = none)
    (h3 : (vaultStep p env).1 = .ok vp)
    (h4 : commandBuilder p (joinPath bootstrapDirectory (baseName playbookPath)) vp = .ok cmd)
    (h5 : (uploadInventory p env).1 = none)
    (h6 : runCommand p.useSudo env.run cmd = none) :
    (deployAnsibleModule p env).1 = none := by
  rcases hv : vaultStep p env with ⟨r1, evs1⟩
  rcases hi : uploadInventory p env with ⟨r2, evs2⟩
  rw [hv] at h3
  rw [hi] at h5
  simp only at h3 h5
  subst h3 h5
  simp only [deployAnsibleModule, h1, h2, hv, h4, hi, h6]
  split <;> rfl

/-- Witness for C6: in an environment in which everything succeeds except
that the cleanup command fails to start, the workflow still reports no
error. -/
theorem cleanup_failure_never_overrides_success_witness :
    (deployAnsibleModule cfgBase envCleanupFails).1 = none :=
  cleanup_failure_never_overrides_success cfgBase envCleanupFails
    "~/ansible/playbook.yaml" "" cmdBase rfl rfl rfl rfl rfl rfl

/-- The vault upload step never performs the disconnect action. -/
theorem disconnect_not_in_uploadVault (p : provisioner) (env : Env) (path : String) :
    WEv.disconnect ∉ (uploadVaultPasswordFile p env path).2 := by
  cases ho : env.openErr path with
  | none =>
    cases hu : env.uploadErr
        (joinPath (joinPath bootstrapDirectory ".vault-ansible-bootstrap") (baseName path)) <;>
      simp [uploadVaultPasswordFile, ho, hu]
  | some m => simp [uploadVaultPasswordFile, ho]

/-- The inventory upload step never performs the disconnect action. -/
theorem disconnect_not_in_uploadInventory (p : provisioner) (env : Env) :
    WEv.disconnect ∉ (uploadInventory p env).2 := by
  cases hu : env.uploadErr inventoryFilePath <;> simp [uploadInventory, hu]

/-- The cleanup step never performs the disconnect action. -/
theorem disconnect_not_in_cleanup (p : provisioner) (env : Env) :
    WEv.disconnect ∉ cleanupAfterBootstrap p env := by
  simp [cleanupAfterBootstrap]

/-- The install step never performs the disconnect action. -/
theorem disconnect_not_in_install (p : provisioner) (env : Env) :
    WEv.disconnect ∉ (installAnsible p env).2 := by
  cases hs : env.uploadScriptErr <;> simp [installAnsible, hs]

/-- The vault step never performs the disconnect action. -/
theorem disconnect_not_in_vaultStep (p : provisioner) (env : Env) :
    WEv.disconnect ∉ (vaultStep p env).2 := by
  unfold vaultStep
  split
  · split
    · simp
    · exact disconnect_not_in_uploadVault p env _
  · simp

/-- `deployAnsibleModule` never performs the disconnect action. -/
theorem disconnect_not_in_deploy (p : provisioner) (env : Env) :
    WEv.disconnect ∉ (deployAnsibleModule p env).2 := by
  rcases hr : resolvePath env p.Playbook with e | pb
  · simp [deployAnsibleModule, hr]
  · cases hu : env.uploadDirErr with
    | some m => simp [deployAnsibleModule, hr, hu]
    | none =>
      rcases hv : vaultStep p env with ⟨r1, evs1⟩
      have hv1 : WEv.disconnect ∉ evs1 := by
        have := disconnect_not_in_vaultStep p env
        rw [hv] at this
        exact this
      cases r1 with
      | error e => simp [deployAnsibleModule, hr, hu, hv, hv1]
      | ok vp =>
        rcases hb : commandBuilder p (joinPath bootstrapDirectory (baseName pb)) vp with m | cmd
        · simp [deployAnsibleModule, hr, hu, hv, hb, hv1]
        · rcases hi : uploadInventory p env with ⟨r2, evs2⟩
          have hi1 : WEv.disconnect ∉ evs2 := by
            have := disconnect_not_in_uploadInventory p env
            rw [hi] at this
            exact this
          cases r2 with
          | some e => simp [deployAnsibleModule, hr, hu, hv, hb, hi, hv1, hi1]
          | none =>
            cases hrun : runCommand p.useSudo env.run cmd with
            | some e => simp [deployAnsibleModule, hr, hu, hv, hb, hi, hrun, hv1, hi1]
            | none =>
              have hcl := disconnect_not_in_cleanup p env
              cases hsc : p.skipCleanup <;>
                simp [deployAnsibleModule, hr, hu, hv, hb, hi, hrun, hsc, hv1, hi1, hcl]

/-- Claim C9: the workflow performs the disconnect action exactly once, as
its final action, on every path on which the connection was established —
whatever install, upload, command or cleanup outcomes follow — and performs
no disconnect at all when decoding, communicator creation or connecting
failed. -/
theorem disconnect_exactly_once (env : Env) (d : ResourceData) :
    ((∃ p, decodeConfig d = .ok p) → env.commNew = none →
      retryFunc env.connect 0 env.connectBudget = none →
      ((applyFn env d).2.count WEv.disconnect = 1
        ∧ (applyFn env d).2.getLast? = some WEv.disconnect))
  ∧ (∀ m, decodeConfig d = .error m → (applyFn env d).2.count WEv.disconnect = 0)
  ∧ (∀ m, env.commNew = some m → (applyFn env d).2.count WEv.disconnect = 0)
  ∧ (∀ m, retryFunc env.connect 0 env.connectBudget = some m →
      (applyFn env d).2.count WEv.disconnect = 0) := by
  refine ⟨?_, ?_, ?_, ?_⟩
  · rintro ⟨p, hp⟩ hcn hrc
    have hbody : WEv.disconnect ∉ (if !p.skipInstall then
        match installAnsible p env with
        | (some e, evs) => (some e, evs)
        | (none, evs) =>
          let r := deployAnsibleModule p env
          (r.1, evs ++ r.2)
      else deployAnsibleModule p env : Option Err × List WEv).2 := by
      split
      · rcases hins : installAnsible p env with ⟨ri, evsi⟩
        have hinsm : WEv.disconnect ∉ evsi := by
          have := disconnect_not_in_install p env
          rw [hins] at this
          exact this
        cases ri with
        | some e => simpa using hinsm
        | none =>
          simp only [List.mem_append]
          rintro (h | h)
          · exact hinsm h
          · exact disconnect_not_in_deploy p env h
      · exact disconnect_not_in_deploy p env
    constructor
    · simp only [applyFn, hp, hcn, hrc]
      rw [List.count_cons, List.count_append]
      have : (if !p.skipInstall then
        match installAnsible p env with
        | (some e, evs) => (some e, evs)
        | (none, evs) =>
          let r := deployAnsibleModule p env
          (r.1, evs ++ r.2)
      else deployAnsibleModule p env : Option Err × List WEv).2.count WEv.disconnect = 0 :=
        List.count_eq_zero.mpr hbody
      rw [this]
      simp
    · simp only [applyFn, hp, hcn, hrc]
      rw [show (WEv.connected :: ((if !p.skipInstall then
        match installAnsible p env with
        | (some e, evs) => (some e, evs)
        | (none, evs) =>
          let r := deployAnsibleModule p env
          (r.1, evs ++ r.2)
      else deployAnsibleModule p env : Option Err × List WEv).2 ++ [WEv.disconnect]))
        = (WEv.connected :: (if !p.skipInstall then
        match installAnsible p env with
        | (some e, evs) => (some e, evs)
        | (none, evs) =>
          let r := deployAnsibleModule p env
          (r.1, evs ++ r.2)
      else deployAnsibleModule p env : Option Err × List WEv).2) ++ [WEv.disconnect]
        from by simp]
      exact List.getLast?_concat _
  · intro m hm
    simp [applyFn, hm]
  · intro m hm
    cases hd : decodeConfig d with
    | error e => simp [applyFn, hd]
    | ok p => simp [applyFn, hd, hm]
  · intro m hm
    cases hd : decodeConfig d with
    | error e => simp [applyFn, hd]
    | ok p =>
      cases hcn : env.commNew with
      | some e => simp [applyFn, hd, hcn]
      | none => simp [applyFn, hd, hcn, hm]

/-- Witness for C9: disconnect happens exactly once and last in the
all-success environment, and never when connecting always fails. -/
theorem disconnect_exactly_once_witness :
    ((applyFn envOk rdSkipInstall).2.count WEv.disconnect = 1
      ∧ (applyFn envOk rdSkipInstall).2.getLast? = some WEv.disconnect)
    ∧ (applyFn envNoConnect rdSkipInstall).2.count WEv.disconnect = 0 :=
  ⟨(disconnect_exactly_once envOk rdSkipInstall).1 ⟨cfgSkipInstall, rfl⟩ rfl rfl,
   (disconnect_exactly_once envNoConnect rdSkipInstall).2.2.2 "refused" rfl⟩

/-- Claim C7 counterexample: with skip-install enabled, cleanup enabled and
every external call succeeding, the observed action trace performs the
BuildingCommand action strictly before the inventory is rendered and
uploaded, so not every UploadingArtifacts action completes before
BuildingCommand begins (the source calls `commandBuilder` before
`uploadInventory`). -/
theorem workflow_build_precedes_inventory_upload_cex :
    applyFn envOk rdSkipInstall = (none, cexTrace)
    ∧ cexTrace.indexOf WEv.build <
        cexTrace.indexOf (WEv.upload inventoryFilePath)
    ∧ WEv.build ∈ cexTrace ∧ WEv.upload inventoryFilePath ∈ cexTrace := by
  exact ⟨rfl, by decide, by decide, by decide⟩

/-- Claim C7 (amended): with skip-install enabled, skip-cleanup disabled,
no vault password file, and every reached step succeeding (the main command
exiting 0), the workflow's actions occur in exactly the order connect,
upload playbook directory, build command, render and upload inventory, run
the main command, clean up, disconnect — the Installing phase is never
entered, and the inventory render/upload happens after BuildingCommand and
before Running rather than before BuildingCommand. -/
theorem workflow_phase_order (env : Env) (d : ResourceData) (p : provisioner)
    (cmd : String)
    (hdec : decodeConfig d = .ok p)
    (hskipI : p.skipInstall = true)
    (hskipC : p.skipCleanup = false)
    (hvault : p.VaultPasswordFile = "")
    (hcommNew : env.commNew = none)
    (hconn : retryFunc env.connect 0 env.connectBudget = none)
    (hstat : env.statOk (env.homedirExpand p.Playbook) = true)
    (hupdir : env.uploadDirErr = none)
    (hcb : commandBuilder p
      (joinPath bootstrapDirectory (baseName (env.homedirExpand p.Playbook))) "" = .ok cmd)
    (hupinv : env.uploadErr inventoryFilePath = none)
    (hrun : runCommand p.useSudo env.run cmd = none) :
    applyFn env d = (none,
      [WEv.connected, WEv.uploadDir, WEv.build,
       WEv.rendered (renderInventory p.Hosts p.Groups),
       WEv.command (runCommandFull p.useSudo ("mkdir -p " ++ dirName inventoryFilePath)),
       WEv.command (runCommandFull p.useSudo ("chmod 0777 " ++ dirName inventoryFilePath)),
       WEv.upload inventoryFilePath,
       WEv.command (runCommandFull p.useSudo cmd),
       WEv.command (runCommandFull p.useSudo ("rm -rf " ++ dirName bootstrapDirectory)),
       WEv.cleanup, WEv.disconnect])
    ∧ (∀ v, WEv.install v ∉ (applyFn env d).2) := by
  have happ : applyFn env d = (none,
      [WEv.connected, WEv.uploadDir, WEv.build,
       WEv.rendered (renderInventory p.Hosts p.Groups),
       WEv.command (runCommandFull p.useSudo ("mkdir -p " ++ dirName inventoryFilePath)),
       WEv.command (runCommandFull p.useSudo ("chmod 0777 " ++ dirName inventoryFilePath)),
       WEv.upload inventoryFilePath,
       WEv.command (runCommandFull p.useSudo cmd),
       WEv.command (runCommandFull p.useSudo ("rm -rf " ++ dirName bootstrapDirectory)),
       WEv.cleanup, WEv.disconnect]) := by
    have hv : vaultStep p env = (Except.ok "", []) := by
      simp [vaultStep, hvault]
    simp only [applyFn, hdec, hcommNew, hconn, hskipI, Bool.not_true, Bool.false_eq_true,
      if_false, deployAnsibleModule, resolvePath, hstat, if_true, hupdir, hv,
      uploadInventory, hupinv, cleanupAfterBootstrap, hskipC]
    rw [hcb]
    simp only [hrun]
    simp
  refine ⟨happ, fun v => ?_⟩
  rw [happ]
  simp

/-- Witness for C7 (amended) at the all-success environment with
skip-install enabled. -/
theorem workflow_phase_order_witness :
    applyFn envOk rdSkipInstall = (none,
      [WEv.connected, WEv.uploadDir, WEv.build,
       WEv.rendered (renderInventory cfgSkipInstall.Hosts cfgSkipInstall.Groups),
       WEv.command (runCommandFull cfgSkipInstall.useSudo
         ("mkdir -p " ++ dirName inventoryFilePath)),
       WEv.command (runCommandFull cfgSkipInstall.useSudo
         ("chmod 0777 " ++ dirName inventoryFilePath)),
       WEv.upload inventoryFilePath,
       WEv.command (runCommandFull cfgSkipInstall.useSudo cmdBase),
       WEv.command (runCommandFull cfgSkipInstall.useSudo
         ("rm -rf " ++ dirName bootstrapDirectory)),
       WEv.cleanup, WEv.disconnect])
    ∧ (∀ v, WEv.install v ∉ (applyFn envOk rdSkipInstall).2) :=
  workflow_phase_order envOk rdSkipInstall cfgSkipInstall cmdBase
    rfl rfl rfl rfl rfl rfl rfl rfl rfl rfl rfl

/-- Claim C10: the two remote preparation commands (`mkdir -p`, `chmod
0777`) run before the vault password upload and before the inventory upload
have their results discarded — the step's result is the same in any two
environments that agree on `os.Open` and `comm.Upload`, whatever each
command returns in each — and the upload is attempted regardless (for the
vault file, provided `os.Open` succeeded). -/
theorem prep_command_errors_discarded (p : provisioner) (env env2 : Env) (path : String)
    (hOpen : env.openErr = env2.openErr) (hUp : env.uploadErr = env2.uploadErr) :
    (uploadVaultPasswordFile p env path).1 = (uploadVaultPasswordFile p env2 path).1
  ∧ (uploadInventory p env).1 = (uploadInventory p env2).1
  ∧ (env.openErr path = none →
      WEv.upload (joinPath (joinPath bootstrapDirectory ".vault-ansible-bootstrap")
        (baseName path)) ∈ (uploadVaultPasswordFile p env path).2)
  ∧ WEv.upload inventoryFilePath ∈ (uploadInventory p env).2 := by
  refine ⟨?_, ?_, ?_, ?_⟩
  · simp only [uploadVaultPasswordFile, hOpen, hUp]
  · simp only [uploadInventory, hUp]
  · intro h
    cases hu : env.uploadErr
        (joinPath (joinPath bootstrapDirectory ".vault-ansible-bootstrap") (baseName path)) <;>
      simp [uploadVaultPasswordFile, h, hu]
  · cases hu : env.uploadErr inventoryFilePath <;> simp [uploadInventory, hu]

/-- Witness for C10: the vault and inventory upload steps answer the same
in the all-success environment and in the environment in which every
command fails to start, and both uploads are attempted. -/
theorem prep_command_errors_discarded_witness :
    (uploadVaultPasswordFile cfgBase envOk "/secret/vault.txt").1
      = (uploadVaultPasswordFile cfgBase envPrepFail "/secret/vault.txt").1
    ∧ (uploadInventory cfgBase envOk).1 = (uploadInventory cfgBase envPrepFail).1
    ∧ WEv.upload (joinPath (joinPath bootstrapDirectory ".vault-ansible-bootstrap")
        (baseName "/secret/vault.txt"))
        ∈ (uploadVaultPasswordFile cfgBase envOk "/secret/vault.txt").2
    ∧ WEv.upload inventoryFilePath ∈ (uploadInventory cfgBase envOk).2 :=
  have h := prep_command_errors_discarded cfgBase envOk envPrepFail "/secret/vault.txt" rfl rfl
  ⟨h.1, h.2.1, h.2.2.1 rfl, h.2.2.2⟩

end TfAnsible

namespace RunSync

/-- A step taken from a quiet state keeps the state quiet and cannot be an
emission. -/
theorem step_quiet {s s' : St} {l : Label} (h : Step s l s') (hq : Quiet s) :
    Quiet s' ∧ ∀ x, l ≠ Label.emit x := by
  obtain ⟨h1, h2, h3⟩ := hq
  cases h <;> simp_all [Quiet]

/-- An execution from a quiet state stays quiet and emits nothing. -/
theorem exec_quiet {s s' : St} {tr : List Label} (h : Exec s tr s') (hq : Quiet s) :
    Quiet s' ∧ ∀ x, Label.emit x ∉ tr := by
  induction h with
  | refl s => exact ⟨hq, by simp⟩
  | step hst hex ih =>
    obtain ⟨hq1, hne⟩ := step_quiet hst hq
    obtain ⟨hq2, hmem⟩ := ih hq1
    refine ⟨hq2, fun x hx => ?_⟩
    rcases List.mem_cons.mp hx with he | hm
    · exact hne x he.symm
    · exact hmem x hm

/-- The await-point invariant is preserved by every step. -/
theorem step_inv {s s' : St} {l : Label} (h : Step s l s') (hi : Inv s) : Inv s' := by
  obtain ⟨h1, h2⟩ := hi
  cases h <;> simp_all [Inv]

/-- The await-point invariant is preserved by executions. -/
theorem exec_inv {s s' : St} {tr : List Label} (h : Exec s tr s') (hi : Inv s) : Inv s' := by
  induction h with
  | refl s => exact hi
  | step hst hex ih => exact ih (step_inv hst hi)

/-- Once an execution from an invariant state has performed the return
step, the resulting state is quiet. -/
theorem ret_gives_quiet {s s' : St} {tr : List Label} (h : Exec s tr s') (hi : Inv s)
    (hret : Label.ret ∈ tr) : Quiet s' := by
  induction h with
  | refl s => cases hret
  | step hst hex ih =>
    rcases List.mem_cons.mp hret with rfl | hm
    · cases hst with
      | mainAwaitErr hmain herr =>
        exact (exec_quiet hex ⟨hi.1 hmain, herr, rfl⟩).1
    · exact ih (step_inv hst hi) hm

/-- The initial state satisfies the await-point invariant. -/
theorem init_inv (outLines errLines : List String) : Inv (init outLines errLines) := by
  simp [Inv, init]

/-- The zero-output schedule: the process exits without writing anything,
the main thread closes both pipes, both relays observe end-of-stream, and
`runCommand` returns. -/
theorem zero_output_exec :
    Exec (init [] [])
      [Label.tau, Label.tau, Label.tau, Label.tau, Label.tau, Label.tau, Label.tau, Label.ret]
      quietFinal := by
  refine Exec.step (Step.procExit _ rfl) ?_
  refine Exec.step (Step.mainWaitDone _ rfl rfl) ?_
  refine Exec.step (Step.mainCloseOut _ rfl) ?_
  refine Exec.step (Step.mainCloseErr _ rfl) ?_
  refine Exec.step (Step.relayOutEof _ rfl rfl rfl) ?_
  refine Exec.step (Step.mainAwaitOut _ rfl rfl) ?_
  refine Exec.step (Step.relayErrEof _ rfl rfl rfl) ?_
  exact Exec.step (Step.mainAwaitErr _ rfl rfl) (Exec.refl _)

/-- Claim C8: on every schedule, once `runCommand` has returned (label
`ret`), no relay can emit any further output line — the return step is only
enabled after both relays have observed end-of-stream — and the zero-output
execution does reach the returned state with both relays done, so empty
streams are drained without hanging. -/
theorem runCommand_returns_after_relays_done :
    (∀ (outLines errLines : List String) (tr : List Label) (s1 : St)
        (tr2 : List Label) (s2 : St),
        Exec (init outLines errLines) tr s1 → Label.ret ∈ tr →
        Exec s1 tr2 s2 → ∀ x, Label.emit x ∉ tr2)
  ∧ (Exec (init [] [])
        [Label.tau, Label.tau, Label.tau, Label.tau, Label.tau, Label.tau, Label.tau, Label.ret]
        quietFinal
      ∧ Quiet quietFinal) := by
  constructor
  · intro outLines errLines tr s1 tr2 s2 hex hret hex2 x
    have hq1 : Quiet s1 := ret_gives_quiet hex (init_inv outLines errLines) hret
    exact (exec_quiet hex2 hq1).2 x
  · exact ⟨zero_output_exec, by simp [Quiet, quietFinal]⟩

/-- Witness for C8: applied to the concrete zero-output execution, whose
trace contains the return label, and to the empty continuation. -/
theorem runCommand_returns_after_relays_done_witness :
    Label.emit "line" ∉ ([] : List Label) :=
  (runCommand_returns_after_relays_done).1 [] []
    [Label.tau, Label.tau, Label.tau, Label.tau, Label.tau, Label.tau, Label.tau, Label.ret]
    quietFinal [] quietFinal zero_output_exec (by simp) (Exec.refl quietFinal) "line"

end RunSync
